import Mathlib

/-!
Verification development for the IITM-ESM ocean SSS plotting scripts
(`sss_plotting_script_ann.py` and `sss_plotting_script_season.py`).

The two Python scripts are shallowly embedded as pure Lean functions that
produce a trace of observable events (console prints, dataset opens, panel
draws, figure saves) together with a process exit code.  Gridded datasets
are modelled with integer-labelled coordinates and integer sample values;
floating-point range arguments are modelled over the rationals.
-/

namespace SSS

/-- Cartopy projections reachable through the scripts' projection mapping
(`get_projection` in the annual script recognizes exactly these two; the
seasonal script hard-codes PlateCarree). -/
inductive Projection where
  | plateCarree
  | robinson
deriving DecidableEq

/-- Observable events emitted by a script run: console prints, dataset
opens, output-directory creation, figure/axes creation with a projection,
panel contour draws (recording the coordinate names used to index the
plotted field), per-panel colorbars, and figure saves. -/
inductive Event where
  | printMsg (s : String)
  | openDS (path : String)
  | mkdirOut (dir : String)
  | subplots (rows cols : Nat) (proj : Projection)
  | plotPanel (r c : Nat) (title : String) (lonName latName : String)
  | colorbar (r c : Nat)
  | savePNG (path : String)
deriving DecidableEq

/-- Result of one script process: the event trace and the exit code. -/
structure RunResult where
  trace : List Event
  exit : Nat
deriving DecidableEq

/-- A 2-D gridded data variable (an `xarray.DataArray` as the scripts use
it): its remaining dimension names, the names of the coordinates attached
to it, integer-labelled longitude and latitude coordinate values, a value
for each (lon,lat) label pair, and the record of `isel` index selections
the script applied when extracting it. -/
structure DataArray where
  dims : List String
  coordNames : List String
  lons : List Int
  lats : List Int
  val : Int → Int → Int
  sels : List (String × Nat)

/-- A dataset file (an `xarray.Dataset`): its dimension names and its named
data variables. -/
structure Dataset where
  dims : List String
  vars : List (String × DataArray)

/-- The filesystem as the scripts see it: which paths open as datasets. -/
abbrev World := String → Option Dataset

/-- Variable lookup `ds[v]` on a dataset. -/
def Dataset.getVar (ds : Dataset) (v : String) : Option DataArray :=
  (ds.vars.find? (fun p => decide (p.1 = v))).map (fun p => p.2)

/-- Elementwise subtraction of two data arrays, aligned by coordinate
label: the result lives on the coordinates common to both operands and its
value at a common label pair is the difference of the operand values
(models `xarray` arithmetic alignment as used on lines 75-77 / 76-78). -/
def DataArray.sub (a b : DataArray) : DataArray where
  dims := a.dims
  coordNames := a.coordNames.filter (fun n => decide (n ∈ b.coordNames))
  lons := a.lons.filter (fun x => decide (x ∈ b.lons))
  lats := a.lats.filter (fun y => decide (y ∈ b.lats))
  val := fun x y => a.val x y - b.val x y
  sels := []

/-- Index selections the scripts apply to a model variable (annual script
line 60-61, seasonal 62-63): `isel(time=0)` exactly when the dataset has a
`time` dimension. -/
def modelSelections (dims : List String) : List (String × Nat) :=
  if "time" ∈ dims then [("time", 0)] else []

/-- Index selections the scripts apply to the observation variable (annual
script lines 64-67, seasonal 66-69): `isel(depth=0)` when a `depth`
dimension exists, combined with `isel(time=0)` when a `time` dimension
exists. -/
def obsSelections (dims : List String) : List (String × Nat) :=
  if "depth" ∈ dims then
    if "time" ∈ dims then [("time", 0), ("depth", 0)] else [("depth", 0)]
  else
    if "time" ∈ dims then [("time", 0)] else []

/-- Apply a list of `isel` index selections to a data array: each selected
dimension is collapsed away and the selections are recorded. -/
def applySelections (s : List (String × Nat)) (a : DataArray) : DataArray :=
  { a with
    dims := a.dims.filter (fun d => !(s.any (fun p => decide (p.1 = d))))
    sels := s }

/-- Extraction of a model variable from its dataset with the script's time
selection. -/
def extractModelField (ds : Dataset) (v : String) : Option DataArray :=
  (ds.getVar v).map (applySelections (modelSelections ds.dims))

/-- Extraction of the observation variable from its dataset with the
script's time and depth selections. -/
def extractObsField (ds : Dataset) (v : String) : Option DataArray :=
  (ds.getVar v).map (applySelections (obsSelections ds.dims))

/-- Leading and trailing whitespace removed, as Python `str.strip()`. -/
def trimChars (l : List Char) : List Char :=
  ((l.dropWhile Char.isWhitespace).reverse.dropWhile Char.isWhitespace).reverse

/-- Split a character list at every comma, keeping empty segments, as
Python `str.split(",")`. -/
def splitOnComma : List Char → List (List Char)
  | [] => [[]]
  | c :: r =>
    if c = ',' then [] :: splitOnComma r
    else
      match splitOnComma r with
      | h :: t => (c :: h) :: t
      | [] => [[c]]

/-- Sign prefix of a decimal literal: whether it is negated, and the
remaining characters. -/
def signSplit (t : List Char) : Bool × List Char :=
  match t with
  | '-' :: r => (true, r)
  | '+' :: r => (false, r)
  | _ => (false, t)

/-- Value of a digit string. -/
def digitsToNat (l : List Char) : Nat :=
  l.foldl (fun n c => 10 * n + (c.toNat - 48)) 0

/-- Rational value of a signed decimal literal with integer digits `ip`
and fraction digits `fr`. -/
def ratOfDecimal (neg : Bool) (ip fr : List Char) : ℚ :=
  (if neg then (-1 : ℚ) else 1) *
    ((digitsToNat ip : ℚ) + (digitsToNat fr : ℚ) / ((10 : ℚ) ^ fr.length))

/-- Models Python `float()` restricted to optionally signed decimal
literals (digits with an optional fractional part), tolerating surrounding
whitespace; exponent, infinity and nan forms are outside the model. -/
def parseFloatChars (l : List Char) : Option ℚ :=
  let p := signSplit (trimChars l)
  let ip := p.2.takeWhile Char.isDigit
  let rest := p.2.dropWhile Char.isDigit
  match rest with
  | [] => if ip.isEmpty then none else some (ratOfDecimal p.1 ip [])
  | '.' :: fr =>
    if fr.all Char.isDigit && !(ip.isEmpty && fr.isEmpty) then
      some (ratOfDecimal p.1 ip fr)
    else none
  | _ => none

/-- Python `float()` on a string, under the decimal-literal model above. -/
def parseFloat (s : String) : Option ℚ :=
  parseFloatChars s.toList

/-- Models `lat_min, lat_max = map(float, s.strip().split(","))` (annual
lines 47-48, seasonal 49-50): succeeds exactly when the stripped string
splits on "," into exactly two float-parsable tokens. -/
def parseRange (s : String) : Option (ℚ × ℚ) :=
  match (splitOnComma (trimChars s.toList)).map parseFloatChars with
  | [some x, some y] => some (x, y)
  | _ => none

/-- Error message printed when a lat/lon range string is malformed. -/
def rangeErrMsg : String :=
  "Error: Latitude or Longitude range is not properly defined. Expected format: \x27min,max\x27."

/-- Prefix of the message printed when dataset loading fails. -/
def loadErrMsg (detail : String) : String :=
  "Error loading datasets: " ++ detail

/-- The three fields a successful loading block produces: model 1, the
optional model 2 (absent when its path argument is the empty string), and
the observation. -/
structure LoadOk where
  m1 : DataArray
  m2 : Option DataArray
  obs : DataArray

/-- The dataset-loading block shared verbatim by both scripts (annual
lines 54-71, seasonal 56-73): open model 1, model 2 when its path is
non-empty, and the observation; extract the named variables with their
index selections.  Returns the opened paths in order together with either
the three fields or the error message printed before exiting with code 1. -/
def loadFields (m1p m2p obsp v ov : String) (w : World) :
    List String × Except String LoadOk :=
  match w m1p with
  | none => ([], .error (loadErrMsg ("No such file or directory: " ++ m1p)))
  | some ds1 =>
    match (if m2p = "" then some none else (w m2p).map some) with
    | none => ([m1p], .error (loadErrMsg ("No such file or directory: " ++ m2p)))
    | some ods2 =>
      let opens2 := m1p :: (if m2p = "" then [] else [m2p])
      match w obsp with
      | none => (opens2, .error (loadErrMsg ("No such file or directory: " ++ obsp)))
      | some dsObs =>
        let opens3 := opens2 ++ [obsp]
        match extractModelField ds1 v with
        | none => (opens3, .error (loadErrMsg ("variable " ++ v ++ " not found")))
        | some f1 =>
          match (match ods2 with
                 | none => some none
                 | some ds2 => (extractModelField ds2 v).map some) with
          | none => (opens3, .error (loadErrMsg ("variable " ++ v ++ " not found")))
          | some of2 =>
            match extractObsField dsObs ov with
            | none => (opens3, .error (loadErrMsg ("variable " ++ ov ++ " not found")))
            | some fo => (opens3, .ok ⟨f1, of2, fo⟩)

/-- The bias computations (annual lines 75-77, seasonal 76-78):
bias1 = model1 − obs always; bias2 = model2 − obs and
bias3 = model1 − model2 only when model 2 is present. -/
def computeBiases (m1 : DataArray) (m2 : Option DataArray) (obs : DataArray) :
    DataArray × Option DataArray × Option DataArray :=
  (m1.sub obs,
   m2.map (fun d => d.sub obs),
   m2.map (fun d => m1.sub d))

/-- The coordinate identification shared by both scripts (annual lines
80-85, seasonal 81-86), applied to model 1's field only: prefer
`xt_ocean`/`yt_ocean`, fall back to `lon`/`lat`, otherwise the scripts
raise an uncaught ValueError. -/
def resolveCoords (coords : List String) : Option (String × String) :=
  if "xt_ocean" ∈ coords ∧ "yt_ocean" ∈ coords then some ("xt_ocean", "yt_ocean")
  else if "lon" ∈ coords ∧ "lat" ∈ coords then some ("lon", "lat")
  else none

/-- ASCII lowercasing, as Python `str.lower()` on ASCII names. -/
def lowerString (s : String) : String :=
  String.mk (s.toList.map Char.toLower)

/-- The two messages `get_projection` prints before exiting when the
projection name is not recognized (annual lines 110-111). -/
def projErrEvents (n : String) : List Event :=
  [Event.printMsg ("Error: Projection \x27" ++ n ++ "\x27 not found."),
   Event.printMsg "Available projections: [\x27platecarree\x27, \x27robinson\x27]"]

/-- The annual script's `get_projection` (lines 99-112): a case-insensitive
lookup recognizing exactly "platecarree" and "robinson"; any other name
prints the two messages above and exits with code 1. -/
def getProjection (n : String) : Except (List Event) Projection :=
  if lowerString n = "platecarree" then .ok Projection.plateCarree
  else if lowerString n = "robinson" then .ok Projection.robinson
  else .error (projErrEvents n)

/-- One panel request: grid row, grid column, the field to draw, and the
panel title. -/
abbrev PanelReq := Nat × Nat × DataArray × String

/-- The `plot_map` calls in sequence (shared shape of annual lines 138-162
and seasonal 119-143).  Each panel indexes the plotted field's coordinates
by the names resolved from model 1; if the field lacks either name the
underlying lookup raises and the run dies there (second component false),
otherwise the draw and its colorbar are emitted. -/
def panelEvents (ln lt : String) : List PanelReq → List Event × Bool
  | [] => ([], true)
  | (r, c, d, t) :: ps =>
    if ln ∈ d.coordNames ∧ lt ∈ d.coordNames then
      let rest := panelEvents ln lt ps
      (Event.plotPanel r c t ln lt :: Event.colorbar r c :: rest.1, rest.2)
    else ([], false)

/-- The annual script's panel list in source order (lines 138-162):
observation at (0,0); bias3 at (0,1) and model 2 at (2,0) and bias2 at
(2,1) only when model 2 is present; model 1 at (1,0); bias1 at (1,1). -/
def annPanels (lo : LoadOk) (b : DataArray × Option DataArray × Option DataArray) :
    List PanelReq :=
  [(0, 0, lo.obs, "Observation SSS Annual Mean")]
  ++ (match b.2.2 with
      | some d => [(0, 1, d, "Bias (CMIP7 - CMIP6)")]
      | none => [])
  ++ [(1, 0, lo.m1, "CMIP7 SSS Annual Mean")]
  ++ (match lo.m2 with
      | some d => [(2, 0, d, "CMIP6 SSS Annual Mean")]
      | none => [])
  ++ [(1, 1, b.1, "Bias (CMIP7 - Obs)")]
  ++ (match b.2.1 with
      | some d => [(2, 1, d, "Bias (CMIP6 - Obs)")]
      | none => [])

/-- The seasonal script's panel list in source order (lines 119-143); every
title interpolates the season label except the bias2 panel at (2,1), whose
title is the literal string "Bias (CMIP6 - Obs) \x7bseason\x7d" because the
source string lacks the f prefix (line 142). -/
def seasonPanels (lo : LoadOk)
    (b : DataArray × Option DataArray × Option DataArray) (s : String) :
    List PanelReq :=
  [(0, 0, lo.obs, "Observation SSS " ++ s ++ " Mean")]
  ++ (match b.2.2 with
      | some d => [(0, 1, d, "Bias (CMIP7 - CMIP6) " ++ s)]
      | none => [])
  ++ [(1, 0, lo.m1, "CMIP7 SSS " ++ s ++ " Mean")]
  ++ (match lo.m2 with
      | some d => [(2, 0, d, "CMIP6 SSS " ++ s ++ " Mean")]
      | none => [])
  ++ [(1, 1, b.1, "Bias (CMIP7 - Obs) " ++ s)]
  ++ (match b.2.1 with
      | some d => [(2, 1, d, "Bias (CMIP6 - Obs) \x7bseason\x7d")]
      | none => [])

/-- Models `os.path.join(dir, name)` for the scripts' usage. -/
def pathJoin (d f : String) : String :=
  if d = "" then f
  else if d.toList.getLast? = some '/' then d ++ f
  else d ++ "/" ++ f

/-- The annual output path (line 165):
`<output_dir>/<var>_annual_comparison_sss_<projection>.png`. -/
def annOutFile (dir v proj : String) : String :=
  pathJoin dir (v ++ "_annual_comparison_sss_" ++ proj ++ ".png")

/-- The seasonal output path (line 146):
`<output_dir>/<var>_seasonal_comparison_sss_<season>_<projection>.png`. -/
def seasonOutFile (dir v s proj : String) : String :=
  pathJoin dir (v ++ "_seasonal_comparison_sss_" ++ s ++ "_" ++ proj ++ ".png")

/-- Positional arguments of the annual script (lines 24-32). -/
structure AnnArgs where
  model1 : String
  model2 : String
  obs : String
  var : String
  obsVar : String
  outputDir : String
  projection : String
  latRange : String
  lonRange : String

/-- Positional arguments of the seasonal script (lines 24-33). -/
structure SeasonArgs where
  model1 : String
  model2 : String
  obs : String
  var : String
  obsVar : String
  outputDir : String
  projection : String
  latRange : String
  lonRange : String
  season : String

/-- The annual script's debugging prints (lines 35-43); the model 2 line
shows "Not provided" when the path argument is empty. -/
def annDebug (a : AnnArgs) : List Event :=
  [Event.printMsg "=== INPUT ARGUMENTS ===",
   Event.printMsg ("Model 1 Annual Mean: " ++ a.model1),
   Event.printMsg ("Model 2 Annual Mean: " ++ (if a.model2 = "" then "Not provided" else a.model2)),
   Event.printMsg ("Observation Annual: " ++ a.obs),
   Event.printMsg ("Projection: " ++ a.projection),
   Event.printMsg ("Latitude Range: " ++ a.latRange),
   Event.printMsg ("Longitude Range: " ++ a.lonRange),
   Event.printMsg ("Variable: " ++ a.var ++ " and Obs Variable: " ++ a.obsVar),
   Event.printMsg "========================"]

/-- The seasonal script's debugging prints (lines 36-45); here the model 2
line prints the raw argument and a season line is added. -/
def seasonDebug (a : SeasonArgs) : List Event :=
  [Event.printMsg "=== INPUT ARGUMENTS ===",
   Event.printMsg ("Model 1 Seasonal Mean: " ++ a.model1),
   Event.printMsg ("Model 2 Seasonal Mean: " ++ a.model2),
   Event.printMsg ("Observation Seasonal: " ++ a.obs),
   Event.printMsg ("Projection: " ++ a.projection),
   Event.printMsg ("Latitude Range: " ++ a.latRange),
   Event.printMsg ("Longitude Range: " ++ a.lonRange),
   Event.printMsg ("Variable: " ++ a.var ++ " and Obs Variable: " ++ a.obsVar),
   Event.printMsg ("Season: " ++ a.season),
   Event.printMsg "========================"]

/-- The annual script end to end (`sss_plotting_script_ann.py`): debug
prints; range parsing (exit 1 on failure); dataset loading (exit 1 with
message on failure); bias computation; coordinate resolution on model 1
(uncaught error on failure, before any panel); output directory creation;
projection lookup (exit 1 with the option list on failure); axes creation
with the selected projection; the six conditional panels; figure save. -/
def runAnn (a : AnnArgs) (w : World) : RunResult :=
  match parseRange a.latRange, parseRange a.lonRange with
  | some _, some _ =>
    match loadFields a.model1 a.model2 a.obs a.var a.obsVar w with
    | (lev, .error msg) =>
      ⟨annDebug a ++ lev.map Event.openDS ++ [Event.printMsg msg], 1⟩
    | (lev, .ok lo) =>
      match resolveCoords lo.m1.coordNames with
      | none => ⟨annDebug a ++ lev.map Event.openDS, 1⟩
      | some (ln, lt) =>
        match getProjection a.projection with
        | .error pe =>
          ⟨annDebug a ++ lev.map Event.openDS ++ [Event.mkdirOut a.outputDir] ++ pe, 1⟩
        | .ok proj =>
          match panelEvents ln lt (annPanels lo (computeBiases lo.m1 lo.m2 lo.obs)) with
          | (pes, true) =>
            ⟨annDebug a ++ lev.map Event.openDS
              ++ [Event.mkdirOut a.outputDir, Event.subplots 3 2 proj] ++ pes
              ++ [Event.savePNG (annOutFile a.outputDir a.var a.projection),
                  Event.printMsg ("Plot saved to " ++ annOutFile a.outputDir a.var a.projection)],
             0⟩
          | (pes, false) =>
            ⟨annDebug a ++ lev.map Event.openDS
              ++ [Event.mkdirOut a.outputDir, Event.subplots 3 2 proj] ++ pes, 1⟩
  | _, _ => ⟨annDebug a ++ [Event.printMsg rangeErrMsg], 1⟩

/-- The seasonal script end to end (`sss_plotting_script_season.py`): same
pipeline as the annual script except that there is no projection lookup at
all — the axes are always created with PlateCarree (line 116) and the
projection argument reappears only in the debug print and the output
filename (line 146). -/
def runSeason (a : SeasonArgs) (w : World) : RunResult :=
  match parseRange a.latRange, parseRange a.lonRange with
  | some _, some _ =>
    match loadFields a.model1 a.model2 a.obs a.var a.obsVar w with
    | (lev, .error msg) =>
      ⟨seasonDebug a ++ lev.map Event.openDS ++ [Event.printMsg msg], 1⟩
    | (lev, .ok lo) =>
      match resolveCoords lo.m1.coordNames with
      | none => ⟨seasonDebug a ++ lev.map Event.openDS, 1⟩
      | some (ln, lt) =>
        match panelEvents ln lt
            (seasonPanels lo (computeBiases lo.m1 lo.m2 lo.obs) a.season) with
        | (pes, true) =>
          ⟨seasonDebug a ++ lev.map Event.openDS
            ++ [Event.mkdirOut a.outputDir, Event.subplots 3 2 Projection.plateCarree] ++ pes
            ++ [Event.savePNG (seasonOutFile a.outputDir a.var a.season a.projection),
                Event.printMsg ("Plot saved to " ++ seasonOutFile a.outputDir a.var a.season a.projection)],
           0⟩
        | (pes, false) =>
          ⟨seasonDebug a ++ lev.map Event.openDS
            ++ [Event.mkdirOut a.outputDir, Event.subplots 3 2 Projection.plateCarree] ++ pes, 1⟩
  | _, _ => ⟨seasonDebug a ++ [Event.printMsg rangeErrMsg], 1⟩

/-- Model-grid sample variable used in concrete runs: dimensions
time/lat/lon, coordinates named lon/lat. -/
def daModel : DataArray :=
  ⟨["time", "lat", "lon"], ["lon", "lat"], [0, 100], [-10, 10], fun x y => x + y, []⟩

/-- Second model-grid sample variable with different values. -/
def daModel2 : DataArray :=
  ⟨["time", "lat", "lon"], ["lon", "lat"], [0, 100], [-10, 10], fun x y => 2 * x - y, []⟩

/-- Observation sample variable: has a depth dimension as well. -/
def daObs : DataArray :=
  ⟨["time", "depth", "lat", "lon"], ["lon", "lat"], [0, 100], [-10, 10], fun x y => x - y, []⟩

/-- Model dataset file holding variable "sos". -/
def dsModel : Dataset := ⟨["time", "lat", "lon"], [("sos", daModel)]⟩

/-- Second model dataset file holding variable "sos". -/
def dsModel2 : Dataset := ⟨["time", "lat", "lon"], [("sos", daModel2)]⟩

/-- Observation dataset file holding variable "sos" with a depth
dimension. -/
def dsObs : Dataset := ⟨["time", "depth", "lat", "lon"], [("sos", daObs)]⟩

/-- Model variable carrying the tripolar-ocean coordinate names
`xt_ocean`/`yt_ocean`. -/
def daModelXt : DataArray :=
  ⟨["time", "lat", "lon"], ["xt_ocean", "yt_ocean"], [0, 100], [-10, 10], fun x y => x + y, []⟩

/-- Dataset file for the tripolar-grid model variable. -/
def dsModelXt : Dataset := ⟨["time", "lat", "lon"], [("sos", daModelXt)]⟩

/-- Model variable whose coordinate names match neither recognized pair. -/
def daModelOdd : DataArray :=
  ⟨["time", "lat", "lon"], ["x", "y"], [0, 100], [-10, 10], fun x y => x + y, []⟩

/-- Dataset file for the unrecognized-coordinates model variable. -/
def dsModelOdd : Dataset := ⟨["time", "lat", "lon"], [("sos", daModelOdd)]⟩

/-- Filesystem with well-formed model and observation files. -/
def wDemo : World := fun p =>
  if p = "m1.nc" then some dsModel
  else if p = "m2.nc" then some dsModel2
  else if p = "obs.nc" then some dsObs
  else if p = "m1xt.nc" then some dsModelXt
  else if p = "m1odd.nc" then some dsModelOdd
  else none

/-- Annual invocation with both models present and a valid projection. -/
def aAnnFull : AnnArgs :=
  ⟨"m1.nc", "m2.nc", "obs.nc", "sos", "sos", "out", "PlateCarree", "-30,30", "40,100"⟩

/-- Annual invocation with the model 2 path empty. -/
def aAnnNoM2 : AnnArgs :=
  ⟨"m1.nc", "", "obs.nc", "sos", "sos", "out", "robinson", "-30,30", "40,100"⟩

/-- Annual invocation with an unrecognized projection name. -/
def aAnnBadProj : AnnArgs :=
  ⟨"m1.nc", "", "obs.nc", "sos", "sos", "out", "mercator", "-30,30", "40,100"⟩

/-- Annual invocation whose model 1 has unrecognized coordinate names. -/
def aAnnOddCoords : AnnArgs :=
  ⟨"m1odd.nc", "", "obs.nc", "sos", "sos", "out", "platecarree", "-30,30", "40,100"⟩

/-- Annual invocation with a malformed latitude range. -/
def aAnnBadRange : AnnArgs :=
  ⟨"m1.nc", "", "obs.nc", "sos", "sos", "out", "platecarree", "abc", "40,100"⟩

/-- Annual invocation whose model 1 resolves to `xt_ocean`/`yt_ocean`
while the observation carries `lon`/`lat` — the unstated rendering
precondition of the scripts fails here. -/
def aAnnXt : AnnArgs :=
  ⟨"m1xt.nc", "", "obs.nc", "sos", "sos", "out", "platecarree", "-30,30", "40,100"⟩

/-- Seasonal invocation with an unrecognized projection name, which the
seasonal script never checks. -/
def aSeasonZzz : SeasonArgs :=
  ⟨"m1.nc", "m2.nc", "obs.nc", "sos", "sos", "out", "zzz", "-30,30", "40,100", "DJF"⟩

/-- Seasonal invocation with both models present and a valid projection. -/
def aSeasonFull : SeasonArgs :=
  ⟨"m1.nc", "m2.nc", "obs.nc", "sos", "sos", "out", "platecarree", "-30,30", "40,100", "JJAS"⟩

/-- Row/column positions of the panel-draw events in a trace. -/
def plotPositions (l : List Event) : List (Nat × Nat) :=
  l.filterMap (fun e =>
    match e with
    | Event.plotPanel r c _ _ _ => some (r, c)
    | _ => none)

/-- Paths of the figure-save events in a trace. -/
def savedFiles (l : List Event) : List String :=
  l.filterMap (fun e =>
    match e with
    | Event.savePNG p => some p
    | _ => none)

/-- The lon/lat coordinate names a run will use for every panel: resolved
from model 1's field alone, provided loading succeeds. -/
def resolvedNames (m1p m2p obsp v ov : String) (w : World) : Option (String × String) :=
  match loadFields m1p m2p obsp v ov w with
  | (_, Except.ok lo) => resolveCoords lo.m1.coordNames
  | _ => none

/-- Loaded fields of a run on `wDemo` with both models present. -/
def loDemoFull : LoadOk :=
  ⟨applySelections (modelSelections dsModel.dims) daModel,
   some (applySelections (modelSelections dsModel2.dims) daModel2),
   applySelections (obsSelections dsObs.dims) daObs⟩

/-- Loaded fields of a run on `wDemo` with the model 2 path empty. -/
def loDemoNoM2 : LoadOk :=
  ⟨applySelections (modelSelections dsModel.dims) daModel,
   none,
   applySelections (obsSelections dsObs.dims) daObs⟩

/-- Loaded fields of a run on `wDemo` whose model 1 carries unrecognized
coordinate names. -/
def loDemoOdd : LoadOk :=
  ⟨applySelections (modelSelections dsModelOdd.dims) daModelOdd,
   none,
   applySelections (obsSelections dsObs.dims) daObs⟩

/-! Helper lemmas about the pieces of a run trace. -/

theorem plotPositions_append (l₁ l₂ : List Event) :
    plotPositions (l₁ ++ l₂) = plotPositions l₁ ++ plotPositions l₂ := by
  simp [plotPositions]

theorem savedFiles_append (l₁ l₂ : List Event) :
    savedFiles (l₁ ++ l₂) = savedFiles l₁ ++ savedFiles l₂ := by
  simp [savedFiles]

theorem plotPositions_annDebug (a : AnnArgs) : plotPositions (annDebug a) = [] := by
  simp [annDebug, plotPositions]

theorem savedFiles_annDebug (a : AnnArgs) : savedFiles (annDebug a) = [] := by
  simp [annDebug, savedFiles]

theorem plotPositions_seasonDebug (a : SeasonArgs) : plotPositions (seasonDebug a) = [] := by
  simp [seasonDebug, plotPositions]

theorem savedFiles_seasonDebug (a : SeasonArgs) : savedFiles (seasonDebug a) = [] := by
  simp [seasonDebug, savedFiles]

theorem plotPositions_openDS (l : List String) :
    plotPositions (l.map Event.openDS) = [] := by
  induction l with
  | nil => rfl
  | cons p l ih => simp [plotPositions] at ih ⊢

theorem savedFiles_openDS (l : List String) :
    savedFiles (l.map Event.openDS) = [] := by
  induction l with
  | nil => rfl
  | cons p l ih => simp [savedFiles] at ih ⊢

theorem plotPositions_projErr (n : String) : plotPositions (projErrEvents n) = [] := by
  simp [projErrEvents, plotPositions]

theorem savedFiles_projErr (n : String) : savedFiles (projErrEvents n) = [] := by
  simp [projErrEvents, savedFiles]

/-! Helper lemmas about the panel-drawing loop. -/

theorem panelEvents_mem (ln lt : String) (ps : List PanelReq) :
    ∀ (pes : List Event) (b : Bool) (e : Event),
      panelEvents ln lt ps = (pes, b) → e ∈ pes →
      (∃ r c t, e = Event.plotPanel r c t ln lt) ∨ (∃ r c, e = Event.colorbar r c) := by
  induction ps with
  | nil =>
    intro pes b e h he
    simp [panelEvents] at h
    obtain ⟨h1, -⟩ := h
    subst h1
    simp at he
  | cons p ps ih =>
    obtain ⟨r, c, d, t⟩ := p
    intro pes b e h he
    rcases hps : panelEvents ln lt ps with ⟨pes', b'⟩
    by_cases hc : ln ∈ d.coordNames ∧ lt ∈ d.coordNames
    · simp [panelEvents, hc, hps] at h
      obtain ⟨h1, -⟩ := h
      subst h1
      simp only [List.mem_cons] at he
      rcases he with rfl | rfl | he
      · exact Or.inl ⟨r, c, t, rfl⟩
      · exact Or.inr ⟨r, c, rfl⟩
      · exact ih pes' b' e hps he
    · simp [panelEvents, hc] at h
      obtain ⟨h1, -⟩ := h
      subst h1
      simp at he

theorem panelEvents_positions (ln lt : String) (ps : List PanelReq) :
    ∀ (pes : List Event), panelEvents ln lt ps = (pes, true) →
      plotPositions pes = ps.map (fun p => (p.1, p.2.1)) := by
  induction ps with
  | nil =>
    intro pes h
    simp [panelEvents] at h
    subst h
    rfl
  | cons p ps ih =>
    obtain ⟨r, c, d, t⟩ := p
    intro pes h
    rcases hps : panelEvents ln lt ps with ⟨pes', b'⟩
    by_cases hc : ln ∈ d.coordNames ∧ lt ∈ d.coordNames
    · simp [panelEvents, hc, hps] at h
      obtain ⟨h1, h2⟩ := h
      subst h1
      subst h2
      have h3 := ih pes' hps
      simp [plotPositions] at h3 ⊢
      exact h3
    · simp [panelEvents, hc] at h

theorem panelEvents_all_mem (ln lt : String) (ps : List PanelReq) :
    ∀ (pes : List Event) (r c : Nat) (d : DataArray) (t : String),
      panelEvents ln lt ps = (pes, true) → (r, c, d, t) ∈ ps →
      Event.plotPanel r c t ln lt ∈ pes := by
  induction ps with
  | nil => intro pes r c d t _ hm; simp at hm
  | cons p ps ih =>
    obtain ⟨r', c', d', t'⟩ := p
    intro pes r c d t h hm
    rcases hps : panelEvents ln lt ps with ⟨pes', b'⟩
    by_cases hc : ln ∈ d'.coordNames ∧ lt ∈ d'.coordNames
    · simp [panelEvents, hc, hps] at h
      obtain ⟨h1, h2⟩ := h
      subst h1
      subst h2
      rcases List.mem_cons.mp hm with hm | hm
      · simp at hm
        obtain ⟨rfl, rfl, rfl, rfl⟩ := hm
        simp
      · simp [ih pes' r c d t hps hm]
    · simp [panelEvents, hc] at h

theorem panelEvents_false_cause (ln lt : String) (ps : List PanelReq) :
    ∀ (pes : List Event), panelEvents ln lt ps = (pes, false) →
      ∃ p ∈ ps, ¬(ln ∈ p.2.2.1.coordNames ∧ lt ∈ p.2.2.1.coordNames) := by
  induction ps with
  | nil => intro pes h; simp [panelEvents] at h
  | cons p ps ih =>
    obtain ⟨r, c, d, t⟩ := p
    intro pes h
    rcases hps : panelEvents ln lt ps with ⟨pes', b'⟩
    by_cases hc : ln ∈ d.coordNames ∧ lt ∈ d.coordNames
    · simp [panelEvents, hc, hps] at h
      obtain ⟨-, h2⟩ := h
      obtain ⟨q, hq, hqn⟩ := ih pes' (by rw [hps, h2])
      exact ⟨q, List.mem_cons_of_mem _ hq, hqn⟩
    · exact ⟨(r, c, d, t), List.mem_cons_self _ _, hc⟩

theorem panelEvents_savedFiles (ln lt : String) (ps : List PanelReq) :
    ∀ (pes : List Event) (b : Bool),
      panelEvents ln lt ps = (pes, b) → savedFiles pes = [] := by
  induction ps with
  | nil =>
    intro pes b h
    simp [panelEvents] at h
    obtain ⟨h1, -⟩ := h
    subst h1
    rfl
  | cons p ps ih =>
    obtain ⟨r, c, d, t⟩ := p
    intro pes b h
    rcases hps : panelEvents ln lt ps with ⟨pes', b'⟩
    by_cases hc : ln ∈ d.coordNames ∧ lt ∈ d.coordNames
    · simp [panelEvents, hc, hps] at h
      obtain ⟨h1, -⟩ := h
      subst h1
      have h3 := ih pes' b' hps
      simp [savedFiles] at h3 ⊢
      exact h3
    · simp [panelEvents, hc] at h
      obtain ⟨h1, -⟩ := h
      subst h1
      rfl

/-! Helper lemmas about the loading block. -/

theorem loadFields_m2 (m1p m2p obsp v ov : String) (w : World) (lev : List String) (lo : LoadOk)
    (h : loadFields m1p m2p obsp v ov w = (lev, Except.ok lo)) : lo.m2 = none ↔ m2p = "" := by
  unfold loadFields at h
  by_cases h2 : m2p = ""
  · subst h2
    simp at h
    cases hw1 : w m1p <;> simp [hw1] at h
    next ds1 =>
      cases hwo : w obsp <;> simp [hwo] at h
      next dso =>
        cases hx1 : extractModelField ds1 v <;> simp [hx1] at h
        next f1 =>
          cases hxo : extractObsField dso ov <;> simp [hxo] at h
          next fo =>
            obtain ⟨-, h⟩ := h
            subst h
            simp
  · simp [h2] at h
    cases hw1 : w m1p <;> simp [hw1] at h
    next ds1 =>
      cases hw2 : w m2p <;> simp [hw2] at h
      next ds2 =>
        cases hwo : w obsp <;> simp [hwo] at h
        next dso =>
          cases hx1 : extractModelField ds1 v <;> simp [hx1] at h
          next f1 =>
            cases hx2 : extractModelField ds2 v <;> simp [hx2] at h
            next f2 =>
              cases hxo : extractObsField dso ov <;> simp [hxo] at h
              next fo =>
                obtain ⟨-, h⟩ := h
                subst h
                simp [h2]

theorem extractModelField_sels (ds : Dataset) (v : String) (da : DataArray)
    (h : extractModelField ds v = some da) : da.sels = modelSelections ds.dims := by
  unfold extractModelField at h
  cases hg : ds.getVar v <;> simp [hg] at h
  subst h
  rfl

theorem extractObsField_sels (ds : Dataset) (v : String) (da : DataArray)
    (h : extractObsField ds v = some da) : da.sels = obsSelections ds.dims := by
  unfold extractObsField at h
  cases hg : ds.getVar v <;> simp [hg] at h
  subst h
  rfl

/-! Branch characterizations of the two script runs. -/

theorem runAnn_eq_range_fail (a : AnnArgs) (w : World)
    (h : parseRange a.latRange = none ∨ parseRange a.lonRange = none) :
    runAnn a w = ⟨annDebug a ++ [Event.printMsg rangeErrMsg], 1⟩ := by
  rcases h with h | h
  · simp [runAnn, h]
  · cases hlat : parseRange a.latRange <;> simp [runAnn, hlat, h]

theorem runAnn_eq_load_fail (a : AnnArgs) (w : World) (p1 p2 : ℚ × ℚ)
    (lev : List String) (msg : String)
    (hlat : parseRange a.latRange = some p1) (hlon : parseRange a.lonRange = some p2)
    (hload : loadFields a.model1 a.model2 a.obs a.var a.obsVar w = (lev, Except.error msg)) :
    runAnn a w = ⟨annDebug a ++ lev.map Event.openDS ++ [Event.printMsg msg], 1⟩ := by
  simp [runAnn, hlat, hlon, hload]

theorem runAnn_eq_coord_fail (a : AnnArgs) (w : World) (p1 p2 : ℚ × ℚ)
    (lev : List String) (lo : LoadOk)
    (hlat : parseRange a.latRange = some p1) (hlon : parseRange a.lonRange = some p2)
    (hload : loadFields a.model1 a.model2 a.obs a.var a.obsVar w = (lev, Except.ok lo))
    (hres : resolveCoords lo.m1.coordNames = none) :
    runAnn a w = ⟨annDebug a ++ lev.map Event.openDS, 1⟩ := by
  simp [runAnn, hlat, hlon, hload, hres]

theorem runAnn_eq_proj_fail (a : AnnArgs) (w : World) (p1 p2 : ℚ × ℚ)
    (lev : List String) (lo : LoadOk) (ln lt : String) (pe : List Event)
    (hlat : parseRange a.latRange = some p1) (hlon : parseRange a.lonRange = some p2)
    (hload : loadFields a.model1 a.model2 a.obs a.var a.obsVar w = (lev, Except.ok lo))
    (hres : resolveCoords lo.m1.coordNames = some (ln, lt))
    (hproj : getProjection a.projection = Except.error pe) :
    runAnn a w = ⟨annDebug a ++ lev.map Event.openDS ++ [Event.mkdirOut a.outputDir] ++ pe, 1⟩ := by
  simp [runAnn, hlat, hlon, hload, hres, hproj]

theorem runAnn_eq_panel_fail (a : AnnArgs) (w : World) (p1 p2 : ℚ × ℚ)
    (lev : List String) (lo : LoadOk) (ln lt : String) (proj : Projection) (pes : List Event)
    (hlat : parseRange a.latRange = some p1) (hlon : parseRange a.lonRange = some p2)
    (hload : loadFields a.model1 a.model2 a.obs a.var a.obsVar w = (lev, Except.ok lo))
    (hres : resolveCoords lo.m1.coordNames = some (ln, lt))
    (hproj : getProjection a.projection = Except.ok proj)
    (hpan : panelEvents ln lt (annPanels lo (computeBiases lo.m1 lo.m2 lo.obs)) = (pes, false)) :
    runAnn a w = ⟨annDebug a ++ lev.map Event.openDS
      ++ [Event.mkdirOut a.outputDir, Event.subplots 3 2 proj] ++ pes, 1⟩ := by
  simp [runAnn, hlat, hlon, hload, hres, hproj, hpan]

theorem runAnn_eq_success (a : AnnArgs) (w : World) (p1 p2 : ℚ × ℚ)
    (lev : List String) (lo : LoadOk) (ln lt : String) (proj : Projection) (pes : List Event)
    (hlat : parseRange a.latRange = some p1) (hlon : parseRange a.lonRange = some p2)
    (hload : loadFields a.model1 a.model2 a.obs a.var a.obsVar w = (lev, Except.ok lo))
    (hres : resolveCoords lo.m1.coordNames = some (ln, lt))
    (hproj : getProjection a.projection = Except.ok proj)
    (hpan : panelEvents ln lt (annPanels lo (computeBiases lo.m1 lo.m2 lo.obs)) = (pes, true)) :
    runAnn a w = ⟨annDebug a ++ lev.map Event.openDS
      ++ [Event.mkdirOut a.outputDir, Event.subplots 3 2 proj] ++ pes
      ++ [Event.savePNG (annOutFile a.outputDir a.var a.projection),
          Event.printMsg ("Plot saved to " ++ annOutFile a.outputDir a.var a.projection)], 0⟩ := by
  simp [runAnn, hlat, hlon, hload, hres, hproj, hpan]

theorem runSeason_eq_range_fail (a : SeasonArgs) (w : World)
    (h : parseRange a.latRange = none ∨ parseRange a.lonRange = none) :
    runSeason a w = ⟨seasonDebug a ++ [Event.printMsg rangeErrMsg], 1⟩ := by
  rcases h with h | h
  · simp [runSeason, h]
  · cases hlat : parseRange a.latRange <;> simp [runSeason, hlat, h]

theorem runSeason_eq_load_fail (a : SeasonArgs) (w : World) (p1 p2 : ℚ × ℚ)
    (lev : List String) (msg : String)
    (hlat : parseRange a.latRange = some p1) (hlon : parseRange a.lonRange = some p2)
    (hload : loadFields a.model1 a.model2 a.obs a.var a.obsVar w = (lev, Except.error msg)) :
    runSeason a w = ⟨seasonDebug a ++ lev.map Event.openDS ++ [Event.printMsg msg], 1⟩ := by
  simp [runSeason, hlat, hlon, hload]

theorem runSeason_eq_coord_fail (a : SeasonArgs) (w : World) (p1 p2 : ℚ × ℚ)
    (lev : List String) (lo : LoadOk)
    (hlat : parseRange a.latRange = some p1) (hlon : parseRange a.lonRange = some p2)
    (hload : loadFields a.model1 a.model2 a.obs a.var a.obsVar w = (lev, Except.ok lo))
    (hres : resolveCoords lo.m1.coordNames = none) :
    runSeason a w = ⟨seasonDebug a ++ lev.map Event.openDS, 1⟩ := by
  simp [runSeason, hlat, hlon, hload, hres]

theorem runSeason_eq_panel_fail (a : SeasonArgs) (w : World) (p1 p2 : ℚ × ℚ)
    (lev : List String) (lo : LoadOk) (ln lt : String) (pes : List Event)
    (hlat : parseRange a.latRange = some p1) (hlon : parseRange a.lonRange = some p2)
    (hload : loadFields a.model1 a.model2 a.obs a.var a.obsVar w = (lev, Except.ok lo))
    (hres : resolveCoords lo.m1.coordNames = some (ln, lt))
    (hpan : panelEvents ln lt (seasonPanels lo (computeBiases lo.m1 lo.m2 lo.obs) a.season) = (pes, false)) :
    runSeason a w = ⟨seasonDebug a ++ lev.map Event.openDS
      ++ [Event.mkdirOut a.outputDir, Event.subplots 3 2 Projection.plateCarree] ++ pes, 1⟩ := by
  simp [runSeason, hlat, hlon, hload, hres, hpan]

theorem runSeason_eq_success (a : SeasonArgs) (w : World) (p1 p2 : ℚ × ℚ)
    (lev : List String) (lo : LoadOk) (ln lt : String) (pes : List Event)
    (hlat : parseRange a.latRange = some p1) (hlon : parseRange a.lonRange = some p2)
    (hload : loadFields a.model1 a.model2 a.obs a.var a.obsVar w = (lev, Except.ok lo))
    (hres : resolveCoords lo.m1.coordNames = some (ln, lt))
    (hpan : panelEvents ln lt (seasonPanels lo (computeBiases lo.m1 lo.m2 lo.obs) a.season) = (pes, true)) :
    runSeason a w = ⟨seasonDebug a ++ lev.map Event.openDS
      ++ [Event.mkdirOut a.outputDir, Event.subplots 3 2 Projection.plateCarree] ++ pes
      ++ [Event.savePNG (seasonOutFile a.outputDir a.var a.season a.projection),
          Event.printMsg ("Plot saved to " ++ seasonOutFile a.outputDir a.var a.season a.projection)], 0⟩ := by
  simp [runSeason, hlat, hlon, hload, hres, hpan]

theorem runSeason_exit_zero (a : SeasonArgs) (w : World) (h : (runSeason a w).exit = 0) :
    ∃ p1 p2 lev lo ln lt pes,
      parseRange a.latRange = some p1 ∧ parseRange a.lonRange = some p2 ∧
      loadFields a.model1 a.model2 a.obs a.var a.obsVar w = (lev, Except.ok lo) ∧
      resolveCoords lo.m1.coordNames = some (ln, lt) ∧
      panelEvents ln lt (seasonPanels lo (computeBiases lo.m1 lo.m2 lo.obs) a.season) = (pes, true) ∧
      runSeason a w = ⟨seasonDebug a ++ lev.map Event.openDS
        ++ [Event.mkdirOut a.outputDir, Event.subplots 3 2 Projection.plateCarree] ++ pes
        ++ [Event.savePNG (seasonOutFile a.outputDir a.var a.season a.projection),
            Event.printMsg ("Plot saved to " ++ seasonOutFile a.outputDir a.var a.season a.projection)], 0⟩ := by
  cases hlat : parseRange a.latRange with
  | none => simp [runSeason, hlat] at h
  | some p1 =>
    cases hlon : parseRange a.lonRange with
    | none => simp [runSeason, hlat, hlon] at h
    | some p2 =>
      rcases hload : loadFields a.model1 a.model2 a.obs a.var a.obsVar w with ⟨lev, res⟩
      cases res with
      | error msg => simp [runSeason, hlat, hlon, hload] at h
      | ok lo =>
        cases hres : resolveCoords lo.m1.coordNames with
        | none => simp [runSeason, hlat, hlon, hload, hres] at h
        | some names =>
          obtain ⟨ln, lt⟩ := names
          rcases hpan : panelEvents ln lt (seasonPanels lo (computeBiases lo.m1 lo.m2 lo.obs) a.season) with ⟨pes, b⟩
          cases b with
          | false => simp [runSeason, hlat, hlon, hload, hres, hpan] at h
          | true =>
            refine ⟨p1, p2, lev, lo, ln, lt, pes, ?_, ?_, ?_, ?_, ?_, ?_⟩
            all_goals first
            | rfl
            | simp [runSeason, hlat, hlon, hload, hres, hpan]

theorem runSeason_exit_proj (m1 m2 obs v ov od p p' la lo s : String) (w : World) :
    (runSeason ⟨m1, m2, obs, v, ov, od, p, la, lo, s⟩ w).exit
      = (runSeason ⟨m1, m2, obs, v, ov, od, p', la, lo, s⟩ w).exit := by
  cases hlat : parseRange la with
  | none =>
    rw [runSeason_eq_range_fail ⟨m1, m2, obs, v, ov, od, p, la, lo, s⟩ w (Or.inl hlat),
        runSeason_eq_range_fail ⟨m1, m2, obs, v, ov, od, p', la, lo, s⟩ w (Or.inl hlat)]
  | some q1 =>
    cases hlon : parseRange lo with
    | none =>
      rw [runSeason_eq_range_fail ⟨m1, m2, obs, v, ov, od, p, la, lo, s⟩ w (Or.inr hlon),
          runSeason_eq_range_fail ⟨m1, m2, obs, v, ov, od, p', la, lo, s⟩ w (Or.inr hlon)]
    | some q2 =>
      rcases hload : loadFields m1 m2 obs v ov w with ⟨lev, res⟩
      cases res with
      | error msg =>
        rw [runSeason_eq_load_fail ⟨m1, m2, obs, v, ov, od, p, la, lo, s⟩ w q1 q2 lev msg hlat hlon hload,
            runSeason_eq_load_fail ⟨m1, m2, obs, v, ov, od, p', la, lo, s⟩ w q1 q2 lev msg hlat hlon hload]
      | ok lok =>
        cases hres : resolveCoords lok.m1.coordNames with
        | none =>
          rw [runSeason_eq_coord_fail ⟨m1, m2, obs, v, ov, od, p, la, lo, s⟩ w q1 q2 lev lok hlat hlon hload hres,
              runSeason_eq_coord_fail ⟨m1, m2, obs, v, ov, od, p', la, lo, s⟩ w q1 q2 lev lok hlat hlon hload hres]
        | some names =>
          obtain ⟨ln, lt⟩ := names
          rcases hpan : panelEvents ln lt (seasonPanels lok (computeBiases lok.m1 lok.m2 lok.obs) s) with ⟨pes, b⟩
          cases b with
          | false =>
            rw [runSeason_eq_panel_fail ⟨m1, m2, obs, v, ov, od, p, la, lo, s⟩ w q1 q2 lev lok ln lt pes hlat hlon hload hres hpan,
                runSeason_eq_panel_fail ⟨m1, m2, obs, v, ov, od, p', la, lo, s⟩ w q1 q2 lev lok ln lt pes hlat hlon hload hres hpan]
          | true =>
            rw [runSeason_eq_success ⟨m1, m2, obs, v, ov, od, p, la, lo, s⟩ w q1 q2 lev lok ln lt pes hlat hlon hload hres hpan,
                runSeason_eq_success ⟨m1, m2, obs, v, ov, od, p', la, lo, s⟩ w q1 q2 lev lok ln lt pes hlat hlon hload hres hpan]

theorem runAnn_exit_zero (a : AnnArgs) (w : World) (h : (runAnn a w).exit = 0) :
    ∃ p1 p2 lev lo ln lt proj pes,
      parseRange a.latRange = some p1 ∧ parseRange a.lonRange = some p2 ∧
      loadFields a.model1 a.model2 a.obs a.var a.obsVar w = (lev, Except.ok lo) ∧
      resolveCoords lo.m1.coordNames = some (ln, lt) ∧
      getProjection a.projection = Except.ok proj ∧
      panelEvents ln lt (annPanels lo (computeBiases lo.m1 lo.m2 lo.obs)) = (pes, true) ∧
      runAnn a w = ⟨annDebug a ++ lev.map Event.openDS
        ++ [Event.mkdirOut a.outputDir, Event.subplots 3 2 proj] ++ pes
        ++ [Event.savePNG (annOutFile a.outputDir a.var a.projection),
            Event.printMsg ("Plot saved to " ++ annOutFile a.outputDir a.var a.projection)], 0⟩ := by
  cases hlat : parseRange a.latRange with
  | none => simp [runAnn, hlat] at h
  | some p1 =>
    cases hlon : parseRange a.lonRange with
    | none => simp [runAnn, hlat, hlon] at h
    | some p2 =>
      rcases hload : loadFields a.model1 a.model2 a.obs a.var a.obsVar w with ⟨lev, res⟩
      cases res with
      | error msg => simp [runAnn, hlat, hlon, hload] at h
      | ok lo =>
        cases hres : resolveCoords lo.m1.coordNames with
        | none => simp [runAnn, hlat, hlon, hload, hres] at h
        | some names =>
          obtain ⟨ln, lt⟩ := names
          cases hproj : getProjection a.projection with
          | error pe => simp [runAnn, hlat, hlon, hload, hres, hproj] at h
          | ok proj =>
            rcases hpan : panelEvents ln lt (annPanels lo (computeBiases lo.m1 lo.m2 lo.obs)) with ⟨pes, b⟩
            cases b with
            | false => simp [runAnn, hlat, hlon, hload, hres, hproj, hpan] at h
            | true =>
              refine ⟨p1, p2, lev, lo, ln, lt, proj, pes, ?_, ?_, ?_, ?_, ?_, ?_, ?_⟩
              all_goals first
              | rfl
              | simp [runAnn, hlat, hlon, hload, hres, hproj, hpan]

/-- Shape of the events `get_projection` exits with: always the two
projection-error prints. -/
theorem getProjection_error (n : String) (pe : List Event)
    (h : getProjection n = Except.error pe) : pe = projErrEvents n := by
  by_cases h1 : lowerString n = "platecarree"
  · simp [getProjection, h1] at h
  · by_cases h2 : lowerString n = "robinson"
    · simp [getProjection, h1, h2] at h
    · simp [getProjection, h1, h2] at h
      exact h.symm

/-- Every successful annual run saves exactly the annual output file. -/
theorem runAnn_saved (a : AnnArgs) (w : World) (h : (runAnn a w).exit = 0) :
    savedFiles (runAnn a w).trace = [annOutFile a.outputDir a.var a.projection] := by
  obtain ⟨p1, p2, lev, lo, ln, lt, proj, pes, hlat, hlon, hload, hres, hproj, hpan, heq⟩ :=
    runAnn_exit_zero a w h
  have hsf := panelEvents_savedFiles ln lt _ pes true hpan
  rw [heq]
  simp only [savedFiles_append, savedFiles_annDebug, savedFiles_openDS, hsf]
  simp [savedFiles]


/-- Every successful seasonal run saves exactly the seasonal output file. -/
theorem runSeason_saved (a : SeasonArgs) (w : World) (h : (runSeason a w).exit = 0) :
    savedFiles (runSeason a w).trace = [seasonOutFile a.outputDir a.var a.season a.projection] := by
  obtain ⟨p1, p2, lev, lo, ln, lt, pes, hlat, hlon, hload, hres, hpan, heq⟩ :=
    runSeason_exit_zero a w h
  have hsf := panelEvents_savedFiles ln lt _ pes true hpan
  rw [heq]
  simp only [savedFiles_append, savedFiles_seasonDebug, savedFiles_openDS, hsf]
  simp [savedFiles]

/-! Claim theorems. -/

/-- Claim C1 (amended): for every invocation of the annual script that
reaches the projection check (ranges parse, datasets load, coordinates
resolve on model 1) with a projection argument whose lowercase form is
neither "platecarree" nor "robinson", the process prints the projection
error and the two valid option names and exits with code 1 before any
panel is drawn and before any PNG is written; the dataset files opened by
the loading block all appear in the trace, i.e. they are opened before the
projection check, not after it. -/
theorem C1_amended (a : AnnArgs) (w : World) (p1 p2 : ℚ × ℚ) (lev : List String)
    (lo : LoadOk) (ln lt : String)
    (hlat : parseRange a.latRange = some p1) (hlon : parseRange a.lonRange = some p2)
    (hload : loadFields a.model1 a.model2 a.obs a.var a.obsVar w = (lev, Except.ok lo))
    (hres : resolveCoords lo.m1.coordNames = some (ln, lt))
    (hp1 : lowerString a.projection ≠ "platecarree")
    (hp2 : lowerString a.projection ≠ "robinson") :
    (runAnn a w).exit = 1 ∧
    Event.printMsg ("Error: Projection \x27" ++ a.projection ++ "\x27 not found.")
      ∈ (runAnn a w).trace ∧
    Event.printMsg "Available projections: [\x27platecarree\x27, \x27robinson\x27]"
      ∈ (runAnn a w).trace ∧
    plotPositions (runAnn a w).trace = [] ∧
    savedFiles (runAnn a w).trace = [] ∧
    (∀ p ∈ lev, Event.openDS p ∈ (runAnn a w).trace) := by
  have hproj : getProjection a.projection = Except.error (projErrEvents a.projection) := by
    simp [getProjection, hp1, hp2]
  rw [runAnn_eq_proj_fail a w p1 p2 lev lo ln lt (projErrEvents a.projection)
    hlat hlon hload hres hproj]
  refine ⟨rfl, ?_, ?_, ?_, ?_, ?_⟩
  · simp [projErrEvents]
  · simp [projErrEvents]
  · simp [plotPositions, plotPositions_append, plotPositions_annDebug,
      plotPositions_openDS, annDebug, projErrEvents]
  · simp [savedFiles, savedFiles_append, annDebug, projErrEvents]
  · intro p hp
    have hm : Event.openDS p ∈ List.map Event.openDS lev := List.mem_map_of_mem _ hp
    simp only [List.mem_append]
    exact Or.inl (Or.inl (Or.inr hm))

/-- Claim C1 counterexample: a concrete annual invocation with projection
"mercator" exits with code 1 and prints the two valid options, yet its
trace contains dataset-open events — refuting "exits with code 1 before
any dataset file is opened (no dataset is touched before the projection
check)": in the source, `xr.open_dataset` (lines 55-57) runs before
`get_projection` (line 114). -/
theorem C1_counterexample :
    (runAnn aAnnBadProj wDemo).exit = 1 ∧
    Event.printMsg "Available projections: [\x27platecarree\x27, \x27robinson\x27]"
      ∈ (runAnn aAnnBadProj wDemo).trace ∧
    Event.openDS "m1.nc" ∈ (runAnn aAnnBadProj wDemo).trace ∧
    Event.openDS "obs.nc" ∈ (runAnn aAnnBadProj wDemo).trace := by decide

/-- Witness for the amended C1 theorem at a concrete invocation. -/
theorem C1_amended_witness :
    (runAnn aAnnBadProj wDemo).exit = 1 ∧
    Event.printMsg ("Error: Projection \x27" ++ "mercator" ++ "\x27 not found.")
      ∈ (runAnn aAnnBadProj wDemo).trace ∧
    Event.printMsg "Available projections: [\x27platecarree\x27, \x27robinson\x27]"
      ∈ (runAnn aAnnBadProj wDemo).trace ∧
    plotPositions (runAnn aAnnBadProj wDemo).trace = [] ∧
    savedFiles (runAnn aAnnBadProj wDemo).trace = [] ∧
    (∀ p ∈ ["m1.nc", "obs.nc"], Event.openDS p ∈ (runAnn aAnnBadProj wDemo).trace) :=
  C1_amended aAnnBadProj wDemo _ _ ["m1.nc", "obs.nc"] loDemoNoM2 "lon" "lat"
    rfl rfl rfl rfl (by decide) (by decide)

/-- Claim C2 (amended): the annual script constructs its panel axes with
the user-selected projection (the subplots event carries exactly the
projection resolved from the argument); the seasonal script always renders
its panels with the fixed default PlateCarree projection regardless of the
projection argument, and its exit code is independent of that argument —
the seasonal script performs no projection validation, the argument being
used only for output naming. -/
theorem C2_amended :
    (∀ (a : AnnArgs) (w : World) (p1 p2 : ℚ × ℚ) (lev : List String) (lo : LoadOk)
      (ln lt : String) (proj : Projection),
      parseRange a.latRange = some p1 → parseRange a.lonRange = some p2 →
      loadFields a.model1 a.model2 a.obs a.var a.obsVar w = (lev, Except.ok lo) →
      resolveCoords lo.m1.coordNames = some (ln, lt) →
      getProjection a.projection = Except.ok proj →
      Event.subplots 3 2 proj ∈ (runAnn a w).trace)
    ∧ (∀ (a : SeasonArgs) (w : World) (n m : Nat) (pr : Projection),
      Event.subplots n m pr ∈ (runSeason a w).trace → pr = Projection.plateCarree)
    ∧ (∀ (m1 m2 obs v ov od p q la lo s : String) (w : World),
      (runSeason ⟨m1, m2, obs, v, ov, od, p, la, lo, s⟩ w).exit
        = (runSeason ⟨m1, m2, obs, v, ov, od, q, la, lo, s⟩ w).exit) := by
  refine ⟨?_, ?_, runSeason_exit_proj⟩
  · intro a w p1 p2 lev lo ln lt proj hlat hlon hload hres hproj
    rcases hpan : panelEvents ln lt (annPanels lo (computeBiases lo.m1 lo.m2 lo.obs))
      with ⟨pes, b⟩
    cases b with
    | false =>
      rw [runAnn_eq_panel_fail a w p1 p2 lev lo ln lt proj pes hlat hlon hload hres hproj hpan]
      simp
    | true =>
      rw [runAnn_eq_success a w p1 p2 lev lo ln lt proj pes hlat hlon hload hres hproj hpan]
      simp
  · intro a w n m pr hmem
    cases hlat : parseRange a.latRange with
    | none =>
      rw [runSeason_eq_range_fail a w (Or.inl hlat)] at hmem
      simp [seasonDebug] at hmem
    | some p1 =>
      cases hlon : parseRange a.lonRange with
      | none =>
        rw [runSeason_eq_range_fail a w (Or.inr hlon)] at hmem
        simp [seasonDebug] at hmem
      | some p2 =>
        rcases hload : loadFields a.model1 a.model2 a.obs a.var a.obsVar w with ⟨lev, res⟩
        cases res with
        | error msg =>
          rw [runSeason_eq_load_fail a w p1 p2 lev msg hlat hlon hload] at hmem
          simp [seasonDebug] at hmem
        | ok lo =>
          cases hres : resolveCoords lo.m1.coordNames with
          | none =>
            rw [runSeason_eq_coord_fail a w p1 p2 lev lo hlat hlon hload hres] at hmem
            simp [seasonDebug] at hmem
          | some names =>
            obtain ⟨ln, lt⟩ := names
            rcases hpan : panelEvents ln lt
                (seasonPanels lo (computeBiases lo.m1 lo.m2 lo.obs) a.season) with ⟨pes, b⟩
            have hpes : Event.subplots n m pr ∈ pes → False := by
              intro hin
              rcases panelEvents_mem ln lt _ pes b _ hpan hin with ⟨r, c, t, hE⟩ | ⟨r, c, hE⟩ <;>
                simp at hE
            cases b with
            | false =>
              rw [runSeason_eq_panel_fail a w p1 p2 lev lo ln lt pes
                hlat hlon hload hres hpan] at hmem
              simp [seasonDebug] at hmem
              rcases hmem with ⟨-, -, h⟩ | h
              · exact h
              · exact absurd h hpes
            | true =>
              rw [runSeason_eq_success a w p1 p2 lev lo ln lt pes
                hlat hlon hload hres hpan] at hmem
              simp [seasonDebug] at hmem
              rcases hmem with ⟨-, -, h⟩ | h
              · exact h
              · exact absurd h hpes

/-- Claim C2 counterexample: the seasonal script run with the unrecognized
projection name "zzz" succeeds (exit 0) and writes a PNG whose name embeds
"zzz", with the panels on PlateCarree — refuting the frozen claim that the
seasonal script uses the projection argument for validation: no validation
occurs there. -/
theorem C2_counterexample :
    (runSeason aSeasonZzz wDemo).exit = 0 ∧
    Event.savePNG "out/sos_seasonal_comparison_sss_DJF_zzz.png"
      ∈ (runSeason aSeasonZzz wDemo).trace ∧
    Event.subplots 3 2 Projection.plateCarree ∈ (runSeason aSeasonZzz wDemo).trace := by
  decide

/-- Witness for the amended C2 theorem at concrete invocations. -/
theorem C2_amended_witness :
    Event.subplots 3 2 Projection.plateCarree ∈ (runAnn aAnnFull wDemo).trace ∧
    (runSeason ⟨"m1.nc", "m2.nc", "obs.nc", "sos", "sos", "out", "zzz",
        "-30,30", "40,100", "DJF"⟩ wDemo).exit
      = (runSeason ⟨"m1.nc", "m2.nc", "obs.nc", "sos", "sos", "out", "robinson",
        "-30,30", "40,100", "DJF"⟩ wDemo).exit :=
  ⟨C2_amended.1 aAnnFull wDemo _ _ ["m1.nc", "m2.nc", "obs.nc"] loDemoFull "lon" "lat"
      Projection.plateCarree rfl rfl rfl rfl rfl,
   C2_amended.2.2 "m1.nc" "m2.nc" "obs.nc" "sos" "sos" "out" "zzz" "robinson"
      "-30,30" "40,100" "DJF" wDemo⟩

/-- Claim C3: in every run of either script, bias1 equals the elementwise
difference model1 − observation at the coordinates common to both; when
the model2 path is non-empty, bias2 equals model2 − observation and bias3
equals model1 − model2 elementwise, while bias2 and bias3 are absent
(None) when the model2 path is the empty string. -/
theorem C3_bias_fields :
    (∀ (a b : DataArray) (x y : Int), x ∈ a.lons → x ∈ b.lons → y ∈ a.lats → y ∈ b.lats →
      x ∈ (a.sub b).lons ∧ y ∈ (a.sub b).lats ∧ (a.sub b).val x y = a.val x y - b.val x y)
    ∧ (∀ (m1 obs : DataArray), computeBiases m1 none obs = (m1.sub obs, none, none))
    ∧ (∀ (m1 m2 obs : DataArray),
        computeBiases m1 (some m2) obs = (m1.sub obs, some (m2.sub obs), some (m1.sub m2)))
    ∧ (∀ (m1p m2p obsp v ov : String) (w : World) (lev : List String) (lo : LoadOk),
        loadFields m1p m2p obsp v ov w = (lev, Except.ok lo) →
        (m2p = "" → computeBiases lo.m1 lo.m2 lo.obs = (lo.m1.sub lo.obs, none, none)) ∧
        (m2p ≠ "" → ∃ f2, lo.m2 = some f2 ∧
          computeBiases lo.m1 lo.m2 lo.obs
            = (lo.m1.sub lo.obs, some (f2.sub lo.obs), some (lo.m1.sub f2)))) := by
  refine ⟨?_, ?_, ?_, ?_⟩
  · intro a b x y hxa hxb hya hyb
    refine ⟨?_, ?_, rfl⟩
    · simp [DataArray.sub, List.mem_filter, hxa, hxb]
    · simp [DataArray.sub, List.mem_filter, hya, hyb]
  · intro m1 obs; rfl
  · intro m1 m2 obs; rfl
  · intro m1p m2p obsp v ov w lev lo hload
    constructor
    · intro h2
      have hm2 : lo.m2 = none := (loadFields_m2 m1p m2p obsp v ov w lev lo hload).mpr h2
      rw [hm2]
      rfl
    · intro h2
      have hm2 : lo.m2 ≠ none := fun hn =>
        h2 ((loadFields_m2 m1p m2p obsp v ov w lev lo hload).mp hn)
      obtain ⟨f2, hf2⟩ := Option.ne_none_iff_exists'.mp hm2
      exact ⟨f2, hf2, by rw [hf2]; rfl⟩

/-- Witness for C3 at concrete data arrays. -/
theorem C3_witness :
    0 ∈ (daModel.sub daObs).lons ∧ (-10 : Int) ∈ (daModel.sub daObs).lats ∧
    (daModel.sub daObs).val 0 (-10) = daModel.val 0 (-10) - daObs.val 0 (-10) :=
  C3_bias_fields.1 daModel daObs 0 (-10) (by decide) (by decide) (by decide) (by decide)

/-- Claim C4: coordinate resolution inspects only the model1 field's
coordinates in fixed priority order — `xt_ocean`/`yt_ocean` first (even
when `lon`/`lat` are also present), then `lon`/`lat`, else a fatal error;
and in either script a run whose model1 coordinates resolve to neither
pair exits with code 1 with no panel drawn and no PNG written. -/
theorem C4_coordinate_resolution :
    (∀ c : List String, "xt_ocean" ∈ c → "yt_ocean" ∈ c →
      resolveCoords c = some ("xt_ocean", "yt_ocean"))
    ∧ (∀ c : List String, ¬("xt_ocean" ∈ c ∧ "yt_ocean" ∈ c) → "lon" ∈ c → "lat" ∈ c →
      resolveCoords c = some ("lon", "lat"))
    ∧ (∀ c : List String, ¬("xt_ocean" ∈ c ∧ "yt_ocean" ∈ c) → ¬("lon" ∈ c ∧ "lat" ∈ c) →
      resolveCoords c = none)
    ∧ (∀ (a : AnnArgs) (w : World) (p1 p2 : ℚ × ℚ) (lev : List String) (lo : LoadOk),
      parseRange a.latRange = some p1 → parseRange a.lonRange = some p2 →
      loadFields a.model1 a.model2 a.obs a.var a.obsVar w = (lev, Except.ok lo) →
      resolveCoords lo.m1.coordNames = none →
      (runAnn a w).exit = 1 ∧ plotPositions (runAnn a w).trace = [] ∧
        savedFiles (runAnn a w).trace = [])
    ∧ (∀ (a : SeasonArgs) (w : World) (p1 p2 : ℚ × ℚ) (lev : List String) (lo : LoadOk),
      parseRange a.latRange = some p1 → parseRange a.lonRange = some p2 →
      loadFields a.model1 a.model2 a.obs a.var a.obsVar w = (lev, Except.ok lo) →
      resolveCoords lo.m1.coordNames = none →
      (runSeason a w).exit = 1 ∧ plotPositions (runSeason a w).trace = [] ∧
        savedFiles (runSeason a w).trace = []) := by
  refine ⟨?_, ?_, ?_, ?_, ?_⟩
  · intro c h1 h2; simp [resolveCoords, h1, h2]
  · intro c h h1 h2; simp [resolveCoords, h, h1, h2]
  · intro c h h'; simp [resolveCoords, h, h']
  · intro a w p1 p2 lev lo hlat hlon hload hres
    rw [runAnn_eq_coord_fail a w p1 p2 lev lo hlat hlon hload hres]
    refine ⟨rfl, ?_, ?_⟩
    · simp [plotPositions_append, plotPositions_annDebug, plotPositions_openDS]
    · simp [savedFiles_append, savedFiles_annDebug, savedFiles_openDS]
  · intro a w p1 p2 lev lo hlat hlon hload hres
    rw [runSeason_eq_coord_fail a w p1 p2 lev lo hlat hlon hload hres]
    refine ⟨rfl, ?_, ?_⟩
    · simp [plotPositions_append, plotPositions_seasonDebug, plotPositions_openDS]
    · simp [savedFiles_append, savedFiles_seasonDebug, savedFiles_openDS]

/-- Witness for C4 at a concrete coordinate list and invocation. -/
theorem C4_witness :
    resolveCoords ["x", "y"] = none ∧
    ((runAnn aAnnOddCoords wDemo).exit = 1 ∧
      plotPositions (runAnn aAnnOddCoords wDemo).trace = [] ∧
      savedFiles (runAnn aAnnOddCoords wDemo).trace = []) :=
  ⟨C4_coordinate_resolution.2.2.1 ["x", "y"] (by decide) (by decide),
   C4_coordinate_resolution.2.2.2.1 aAnnOddCoords wDemo _ _ ["m1odd.nc", "obs.nc"] loDemoOdd
     rfl rfl rfl rfl⟩

/-- Claim C5: in every successful run of either script with the model2
path empty, exactly the three panels (0,0) observation, (1,0) model1,
(1,1) bias1 are populated — positions (0,1), (2,0), (2,1) are absent from
the trace; with a non-empty model2 path all six panels are populated. -/
theorem C5_panel_population :
    (∀ (a : AnnArgs) (w : World), (runAnn a w).exit = 0 →
      (a.model2 = "" → plotPositions (runAnn a w).trace = [(0, 0), (1, 0), (1, 1)]) ∧
      (a.model2 ≠ "" → plotPositions (runAnn a w).trace
        = [(0, 0), (0, 1), (1, 0), (2, 0), (1, 1), (2, 1)]))
    ∧ (∀ (a : SeasonArgs) (w : World), (runSeason a w).exit = 0 →
      (a.model2 = "" → plotPositions (runSeason a w).trace = [(0, 0), (1, 0), (1, 1)]) ∧
      (a.model2 ≠ "" → plotPositions (runSeason a w).trace
        = [(0, 0), (0, 1), (1, 0), (2, 0), (1, 1), (2, 1)])) := by
  constructor
  · intro a w h
    obtain ⟨p1, p2, lev, lo, ln, lt, proj, pes, hlat, hlon, hload, hres, hproj, hpan, heq⟩ :=
      runAnn_exit_zero a w h
    constructor
    · intro h2
      have hm2 : lo.m2 = none := (loadFields_m2 _ _ _ _ _ _ _ _ hload).mpr h2
      rw [hm2] at hpan
      have hPos := panelEvents_positions ln lt _ pes hpan
      rw [heq]
      simp only [plotPositions_append, plotPositions_annDebug, plotPositions_openDS, hPos]
      simp [plotPositions, annPanels, computeBiases, hm2]
    · intro h2
      have hm2 : lo.m2 ≠ none := fun hn =>
        h2 ((loadFields_m2 _ _ _ _ _ _ _ _ hload).mp hn)
      obtain ⟨f2, hf2⟩ := Option.ne_none_iff_exists'.mp hm2
      rw [hf2] at hpan
      have hPos := panelEvents_positions ln lt _ pes hpan
      rw [heq]
      simp only [plotPositions_append, plotPositions_annDebug, plotPositions_openDS, hPos]
      simp [plotPositions, annPanels, computeBiases, hf2]
  · intro a w h
    obtain ⟨p1, p2, lev, lo, ln, lt, pes, hlat, hlon, hload, hres, hpan, heq⟩ :=
      runSeason_exit_zero a w h
    constructor
    · intro h2
      have hm2 : lo.m2 = none := (loadFields_m2 _ _ _ _ _ _ _ _ hload).mpr h2
      rw [hm2] at hpan
      have hPos := panelEvents_positions ln lt _ pes hpan
      rw [heq]
      simp only [plotPositions_append, plotPositions_seasonDebug, plotPositions_openDS, hPos]
      simp [plotPositions, seasonPanels, computeBiases, hm2]
    · intro h2
      have hm2 : lo.m2 ≠ none := fun hn =>
        h2 ((loadFields_m2 _ _ _ _ _ _ _ _ hload).mp hn)
      obtain ⟨f2, hf2⟩ := Option.ne_none_iff_exists'.mp hm2
      rw [hf2] at hpan
      have hPos := panelEvents_positions ln lt _ pes hpan
      rw [heq]
      simp only [plotPositions_append, plotPositions_seasonDebug, plotPositions_openDS, hPos]
      simp [plotPositions, seasonPanels, computeBiases, hf2]

/-- Witness for C5 at concrete invocations with and without model 2. -/
theorem C5_witness :
    plotPositions (runAnn aAnnNoM2 wDemo).trace = [(0, 0), (1, 0), (1, 1)] ∧
    plotPositions (runAnn aAnnFull wDemo).trace
      = [(0, 0), (0, 1), (1, 0), (2, 0), (1, 1), (2, 1)] :=
  ⟨(C5_panel_population.1 aAnnNoM2 wDemo (by decide)).1 rfl,
   (C5_panel_population.1 aAnnFull wDemo (by decide)).2 (by decide)⟩

/-- Claim C6: for every range string that strips and splits on "," into
exactly two float-parsable tokens, the parsed values are the floats of the
tokens; for every malformed range string (wrong token count, or a
non-parsable token) parsing fails, and a run of either script with a
failing range string prints the error message, exits with code 1, and
writes no PNG. -/
theorem C6_range_parsing :
    (∀ (s : String) (aTok bTok : List Char) (qa qb : ℚ),
      splitOnComma (trimChars s.toList) = [aTok, bTok] →
      parseFloatChars aTok = some qa → parseFloatChars bTok = some qb →
      parseRange s = some (qa, qb))
    ∧ (∀ (s : String) (toks : List (List Char)),
      splitOnComma (trimChars s.toList) = toks → toks.length ≠ 2 → parseRange s = none)
    ∧ (∀ (s : String) (aTok bTok : List Char),
      splitOnComma (trimChars s.toList) = [aTok, bTok] →
      (parseFloatChars aTok = none ∨ parseFloatChars bTok = none) → parseRange s = none)
    ∧ (∀ (a : AnnArgs) (w : World),
      (parseRange a.latRange = none ∨ parseRange a.lonRange = none) →
      (runAnn a w).exit = 1 ∧ Event.printMsg rangeErrMsg ∈ (runAnn a w).trace ∧
        savedFiles (runAnn a w).trace = [])
    ∧ (∀ (a : SeasonArgs) (w : World),
      (parseRange a.latRange = none ∨ parseRange a.lonRange = none) →
      (runSeason a w).exit = 1 ∧ Event.printMsg rangeErrMsg ∈ (runSeason a w).trace ∧
        savedFiles (runSeason a w).trace = []) := by
  refine ⟨?_, ?_, ?_, ?_, ?_⟩
  · intro s aTok bTok qa qb hsplit ha hb
    replace hsplit : splitOnComma (trimChars s.data) = [aTok, bTok] := hsplit
    simp [parseRange, hsplit, ha, hb]
  · intro s toks hsplit hlen
    replace hsplit : splitOnComma (trimChars s.data) = toks := hsplit
    rcases toks with _ | ⟨t1, _ | ⟨t2, _ | ⟨t3, rest⟩⟩⟩
    · simp [parseRange, hsplit]
    · simp [parseRange, hsplit]
    · simp at hlen
    · simp [parseRange, hsplit]
  · intro s aTok bTok hsplit h
    replace hsplit : splitOnComma (trimChars s.data) = [aTok, bTok] := hsplit
    rcases h with h | h
    · simp [parseRange, hsplit, h]
    · cases ha : parseFloatChars aTok <;> simp [parseRange, hsplit, ha, h]
  · intro a w h
    rw [runAnn_eq_range_fail a w h]
    refine ⟨rfl, ?_, ?_⟩
    · simp
    · simp [savedFiles, savedFiles_append, annDebug]
  · intro a w h
    rw [runSeason_eq_range_fail a w h]
    refine ⟨rfl, ?_, ?_⟩
    · simp
    · simp [savedFiles, savedFiles_append, seasonDebug]

/-- Witness for C6 at a concrete well-formed and a concrete malformed
range string. -/
theorem C6_witness :
    parseRange "-30,30"
      = some (ratOfDecimal true ['3', '0'] [], ratOfDecimal false ['3', '0'] []) ∧
    ((runAnn aAnnBadRange wDemo).exit = 1 ∧
      Event.printMsg rangeErrMsg ∈ (runAnn aAnnBadRange wDemo).trace ∧
      savedFiles (runAnn aAnnBadRange wDemo).trace = []) :=
  ⟨C6_range_parsing.1 "-30,30" ['-', '3', '0'] ['3', '0'] _ _ rfl rfl rfl,
   C6_range_parsing.2.2.2.1 aAnnBadRange wDemo (Or.inl rfl)⟩

/-- Claim C7: a model variable has index 0 selected along "time" exactly
when the dataset has a time dimension and never along "depth"; the
observation variable has index 0 selected along "time" exactly when time
is present and along "depth" exactly when depth is present, combined when
both exist; and field extraction records exactly these selections. -/
theorem C7_time_depth_selection :
    (∀ dims : List String,
      (("time", 0) ∈ modelSelections dims ↔ "time" ∈ dims)
      ∧ (("time", 0) ∈ obsSelections dims ↔ "time" ∈ dims)
      ∧ (("depth", 0) ∈ obsSelections dims ↔ "depth" ∈ dims)
      ∧ (∀ i : Nat, ("depth", i) ∉ modelSelections dims)
      ∧ ("time" ∈ dims → "depth" ∈ dims →
          obsSelections dims = [("time", 0), ("depth", 0)]))
    ∧ (∀ (ds : Dataset) (v : String) (da : DataArray),
        extractModelField ds v = some da → da.sels = modelSelections ds.dims)
    ∧ (∀ (ds : Dataset) (v : String) (da : DataArray),
        extractObsField ds v = some da → da.sels = obsSelections ds.dims) := by
  refine ⟨?_, extractModelField_sels, extractObsField_sels⟩
  intro dims
  by_cases ht : "time" ∈ dims <;> by_cases hd : "depth" ∈ dims <;>
    simp [modelSelections, obsSelections, ht, hd]

/-- Witness for C7 at concrete dimension lists and datasets. -/
theorem C7_witness :
    obsSelections ["time", "depth", "lat", "lon"] = [("time", 0), ("depth", 0)] ∧
    (applySelections (modelSelections dsModel.dims) daModel).sels
      = modelSelections dsModel.dims :=
  ⟨(C7_time_depth_selection.1 ["time", "depth", "lat", "lon"]).2.2.2.2 (by decide) (by decide),
   C7_time_depth_selection.2.1 dsModel "sos" _ rfl⟩

/-- Claim C8: every successful annual run writes exactly one PNG at
`<output_dir>/<var>_annual_comparison_sss_<projection>.png` and every
successful seasonal run writes exactly one PNG at
`<output_dir>/<var>_seasonal_comparison_sss_<season>_<projection>.png`;
the saved path is a function of the arguments alone, so two successful
runs with identical arguments write the same filename. -/
theorem C8_output_naming :
    (∀ (a : AnnArgs) (w : World), (runAnn a w).exit = 0 →
      savedFiles (runAnn a w).trace = [annOutFile a.outputDir a.var a.projection])
    ∧ (∀ (a : SeasonArgs) (w : World), (runSeason a w).exit = 0 →
      savedFiles (runSeason a w).trace
        = [seasonOutFile a.outputDir a.var a.season a.projection])
    ∧ (∀ (a : AnnArgs) (w w2 : World), (runAnn a w).exit = 0 → (runAnn a w2).exit = 0 →
      savedFiles (runAnn a w).trace = savedFiles (runAnn a w2).trace)
    ∧ (∀ (dir v p : String), dir ≠ "" → dir.toList.getLast? ≠ some '/' →
      annOutFile dir v p = dir ++ "/" ++ (v ++ "_annual_comparison_sss_" ++ p ++ ".png"))
    ∧ (∀ (dir v s p : String), dir ≠ "" → dir.toList.getLast? ≠ some '/' →
      seasonOutFile dir v s p
        = dir ++ "/" ++ (v ++ "_seasonal_comparison_sss_" ++ s ++ "_" ++ p ++ ".png")) := by
  refine ⟨runAnn_saved, runSeason_saved, ?_, ?_, ?_⟩
  · intro a w w2 h h2
    rw [runAnn_saved a w h, runAnn_saved a w2 h2]
  · intro dir v p h1 h2
    replace h2 : dir.data.getLast? ≠ some '/' := h2
    simp [annOutFile, pathJoin, h1, h2]
  · intro dir v s p h1 h2
    replace h2 : dir.data.getLast? ≠ some '/' := h2
    simp [seasonOutFile, pathJoin, h1, h2]

/-- Witness for C8 at concrete successful runs. -/
theorem C8_witness :
    savedFiles (runAnn aAnnFull wDemo).trace = [annOutFile "out" "sos" "PlateCarree"] ∧
    savedFiles (runSeason aSeasonFull wDemo).trace
      = [seasonOutFile "out" "sos" "JJAS" "platecarree"] ∧
    annOutFile "out" "sos" "PlateCarree" = "out/sos_annual_comparison_sss_PlateCarree.png" :=
  ⟨C8_output_naming.1 aAnnFull wDemo (by decide),
   C8_output_naming.2.1 aSeasonFull wDemo (by decide),
   C8_output_naming.2.2.2.1 "out" "sos" "PlateCarree" (by decide) (by decide)⟩

/-- Claim C9: every panel drawn by either script indexes the plotted
field's coordinates by the names resolved from the model1 field alone; no
check relates those names to the other fields, and on a concrete input
whose observation lacks the model1-resolved `xt_ocean`/`yt_ocean` names
the run dies at the first panel (exit 1, no panel completed, no PNG),
exhibiting the unstated precondition. -/
theorem C9_coordinate_indexing :
    (∀ (a : AnnArgs) (w : World) (r c : Nat) (t l1 l2 : String),
      Event.plotPanel r c t l1 l2 ∈ (runAnn a w).trace →
      resolvedNames a.model1 a.model2 a.obs a.var a.obsVar w = some (l1, l2))
    ∧ (∀ (a : SeasonArgs) (w : World) (r c : Nat) (t l1 l2 : String),
      Event.plotPanel r c t l1 l2 ∈ (runSeason a w).trace →
      resolvedNames a.model1 a.model2 a.obs a.var a.obsVar w = some (l1, l2))
    ∧ ((runAnn aAnnXt wDemo).exit = 1 ∧
       savedFiles (runAnn aAnnXt wDemo).trace = [] ∧
       plotPositions (runAnn aAnnXt wDemo).trace = [] ∧
       resolvedNames "m1xt.nc" "" "obs.nc" "sos" "sos" wDemo
         = some ("xt_ocean", "yt_ocean")) := by
  refine ⟨?_, ?_, ?_⟩
  · intro a w r c t l1 l2 hmem
    cases hlat : parseRange a.latRange with
    | none =>
      rw [runAnn_eq_range_fail a w (Or.inl hlat)] at hmem
      simp [annDebug] at hmem
    | some p1 =>
      cases hlon : parseRange a.lonRange with
      | none =>
        rw [runAnn_eq_range_fail a w (Or.inr hlon)] at hmem
        simp [annDebug] at hmem
      | some p2 =>
        rcases hload : loadFields a.model1 a.model2 a.obs a.var a.obsVar w with ⟨lev, res⟩
        cases res with
        | error msg =>
          rw [runAnn_eq_load_fail a w p1 p2 lev msg hlat hlon hload] at hmem
          simp [annDebug] at hmem
        | ok lo =>
          cases hres : resolveCoords lo.m1.coordNames with
          | none =>
            rw [runAnn_eq_coord_fail a w p1 p2 lev lo hlat hlon hload hres] at hmem
            simp [annDebug] at hmem
          | some names =>
            obtain ⟨ln, lt⟩ := names
            cases hproj : getProjection a.projection with
            | error pe =>
              obtain rfl := getProjection_error a.projection pe hproj
              rw [runAnn_eq_proj_fail a w p1 p2 lev lo ln lt _
                hlat hlon hload hres hproj] at hmem
              simp [annDebug, projErrEvents] at hmem
            | ok proj =>
              rcases hpan : panelEvents ln lt
                  (annPanels lo (computeBiases lo.m1 lo.m2 lo.obs)) with ⟨pes, b⟩
              have hin : Event.plotPanel r c t l1 l2 ∈ pes → l1 = ln ∧ l2 = lt := by
                intro hin
                rcases panelEvents_mem ln lt _ pes b _ hpan hin with ⟨r', c', t', hE⟩ | ⟨r', c', hE⟩
                · simp at hE
                  exact ⟨hE.2.2.2.1, hE.2.2.2.2⟩
                · simp at hE
              cases b with
              | false =>
                rw [runAnn_eq_panel_fail a w p1 p2 lev lo ln lt proj pes
                  hlat hlon hload hres hproj hpan] at hmem
                simp [annDebug] at hmem
                obtain ⟨rfl, rfl⟩ := hin hmem
                simp [resolvedNames, hload, hres]
              | true =>
                rw [runAnn_eq_success a w p1 p2 lev lo ln lt proj pes
                  hlat hlon hload hres hproj hpan] at hmem
                simp [annDebug] at hmem
                obtain ⟨rfl, rfl⟩ := hin hmem
                simp [resolvedNames, hload, hres]
  · intro a w r c t l1 l2 hmem
    cases hlat : parseRange a.latRange with
    | none =>
      rw [runSeason_eq_range_fail a w (Or.inl hlat)] at hmem
      simp [seasonDebug] at hmem
    | some p1 =>
      cases hlon : parseRange a.lonRange with
      | none =>
        rw [runSeason_eq_range_fail a w (Or.inr hlon)] at hmem
        simp [seasonDebug] at hmem
      | some p2 =>
        rcases hload : loadFields a.model1 a.model2 a.obs a.var a.obsVar w with ⟨lev, res⟩
        cases res with
        | error msg =>
          rw [runSeason_eq_load_fail a w p1 p2 lev msg hlat hlon hload] at hmem
          simp [seasonDebug] at hmem
        | ok lo =>
          cases hres : resolveCoords lo.m1.coordNames with
          | none =>
            rw [runSeason_eq_coord_fail a w p1 p2 lev lo hlat hlon hload hres] at hmem
            simp [seasonDebug] at hmem
          | some names =>
            obtain ⟨ln, lt⟩ := names
            rcases hpan : panelEvents ln lt
                (seasonPanels lo (computeBiases lo.m1 lo.m2 lo.obs) a.season) with ⟨pes, b⟩
            have hin : Event.plotPanel r c t l1 l2 ∈ pes → l1 = ln ∧ l2 = lt := by
              intro hin
              rcases panelEvents_mem ln lt _ pes b _ hpan hin with ⟨r', c', t', hE⟩ | ⟨r', c', hE⟩
              · simp at hE
                exact ⟨hE.2.2.2.1, hE.2.2.2.2⟩
              · simp at hE
            cases b with
            | false =>
              rw [runSeason_eq_panel_fail a w p1 p2 lev lo ln lt pes
                hlat hlon hload hres hpan] at hmem
              simp [seasonDebug] at hmem
              obtain ⟨rfl, rfl⟩ := hin hmem
              simp [resolvedNames, hload, hres]
            | true =>
              rw [runSeason_eq_success a w p1 p2 lev lo ln lt pes
                hlat hlon hload hres hpan] at hmem
              simp [seasonDebug] at hmem
              obtain ⟨rfl, rfl⟩ := hin hmem
              simp [resolvedNames, hload, hres]
  · refine ⟨by decide, by decide, by decide, by decide⟩

/-- Witness for C9: the names used by a concrete drawn panel equal the
model1-resolved pair. -/
theorem C9_witness :
    resolvedNames "m1.nc" "" "obs.nc" "sos" "sos" wDemo = some ("lon", "lat") :=
  C9_coordinate_indexing.1 aAnnNoM2 wDemo 0 0 "Observation SSS Annual Mean" "lon" "lat"
    (by decide)

/-- Claim C10: in the seasonal script the bias2 panel at (2,1) carries the
literal title "Bias (CMIP6 - Obs) \x7bseason\x7d" — the season label is
not interpolated there (the source string lacks the f prefix) — while
every other populated panel title interpolates the actual season label. -/
theorem C10_bias2_title :
    (∀ (m1f m2f obsf b1 d2 d3 : DataArray) (s : String),
      (seasonPanels ⟨m1f, some m2f, obsf⟩ (b1, some d2, some d3) s).map
          (fun p => p.2.2.2)
        = ["Observation SSS " ++ s ++ " Mean",
           "Bias (CMIP7 - CMIP6) " ++ s,
           "CMIP7 SSS " ++ s ++ " Mean",
           "CMIP6 SSS " ++ s ++ " Mean",
           "Bias (CMIP7 - Obs) " ++ s,
           "Bias (CMIP6 - Obs) \x7bseason\x7d"])
    ∧ (∀ (a : SeasonArgs) (w : World) (p1 p2 : ℚ × ℚ) (lev : List String) (lo : LoadOk)
        (f2 : DataArray) (ln lt : String) (pes : List Event),
        parseRange a.latRange = some p1 → parseRange a.lonRange = some p2 →
        loadFields a.model1 a.model2 a.obs a.var a.obsVar w = (lev, Except.ok lo) →
        lo.m2 = some f2 →
        resolveCoords lo.m1.coordNames = some (ln, lt) →
        panelEvents ln lt (seasonPanels lo (computeBiases lo.m1 lo.m2 lo.obs) a.season)
          = (pes, true) →
        Event.plotPanel 2 1 "Bias (CMIP6 - Obs) \x7bseason\x7d" ln lt
            ∈ (runSeason a w).trace ∧
        Event.plotPanel 0 0 ("Observation SSS " ++ a.season ++ " Mean") ln lt
            ∈ (runSeason a w).trace ∧
        Event.plotPanel 1 1 ("Bias (CMIP7 - Obs) " ++ a.season) ln lt
            ∈ (runSeason a w).trace) := by
  constructor
  · intro m1f m2f obsf b1 d2 d3 s
    rfl
  · intro a w p1 p2 lev lo f2 ln lt pes hlat hlon hload hm2 hres hpan
    rw [runSeason_eq_success a w p1 p2 lev lo ln lt pes hlat hlon hload hres hpan]
    have hb2 : (2, 1, f2.sub lo.obs, "Bias (CMIP6 - Obs) \x7bseason\x7d")
        ∈ seasonPanels lo (computeBiases lo.m1 lo.m2 lo.obs) a.season := by
      simp [seasonPanels, computeBiases, hm2]
    have hb0 : (0, 0, lo.obs, "Observation SSS " ++ a.season ++ " Mean")
        ∈ seasonPanels lo (computeBiases lo.m1 lo.m2 lo.obs) a.season := by
      simp [seasonPanels]
    have hb1 : (1, 1, lo.m1.sub lo.obs, "Bias (CMIP7 - Obs) " ++ a.season)
        ∈ seasonPanels lo (computeBiases lo.m1 lo.m2 lo.obs) a.season := by
      simp [seasonPanels, computeBiases]
    have m2 := panelEvents_all_mem ln lt _ pes 2 1 (f2.sub lo.obs) _ hpan hb2
    have m0 := panelEvents_all_mem ln lt _ pes 0 0 lo.obs _ hpan hb0
    have m1 := panelEvents_all_mem ln lt _ pes 1 1 (lo.m1.sub lo.obs) _ hpan hb1
    refine ⟨?_, ?_, ?_⟩ <;> simp only [List.mem_append] <;> tauto

/-- Witness for C10 at a concrete successful seasonal run. -/
theorem C10_witness :
    Event.plotPanel 2 1 "Bias (CMIP6 - Obs) \x7bseason\x7d" "lon" "lat"
      ∈ (runSeason aSeasonFull wDemo).trace ∧
    Event.plotPanel 0 0 ("Observation SSS " ++ "JJAS" ++ " Mean") "lon" "lat"
      ∈ (runSeason aSeasonFull wDemo).trace ∧
    Event.plotPanel 1 1 ("Bias (CMIP7 - Obs) " ++ "JJAS") "lon" "lat"
      ∈ (runSeason aSeasonFull wDemo).trace :=
  C10_bias2_title.2 aSeasonFull wDemo _ _ ["m1.nc", "m2.nc", "obs.nc"] loDemoFull
    (applySelections (modelSelections dsModel2.dims) daModel2) "lon" "lat" _
    rfl rfl rfl rfl rfl rfl

end SSS
